import Mathlib

/-!
# Verification of the cringe-alert-v2 frontend core

A shallow embedding of the session/feedback state machine of the
`cringe-alert-v2` TypeScript frontend, together with theorems settling the
spec's claims about it.

Embedded source files:
* `src/frontend/src/stores/useAnalysisStore.ts` (the fix-modal-capable
  version, `src/unnamed/part_000`): the Feedback Item Store and analysis view.
* `src/frontend/src/stores/useSessionStore.ts` (`src/unnamed/part_002`):
  the Session Model.
* `src/frontend/src/App.tsx`: `restoreAnalysisFromSession`,
  `runStreamingAnalysis` chunk handling, `handleLoadSession`.
* `src/frontend/src/components/CoachPanel.tsx`: `handleToolCall`.
* `src/frontend/src/components/FeedbackFixModal.tsx`: `handleRecordComplete`.
* `src/frontend/src/services/WebSocketManager.ts`: reconnect backoff.
* `src/frontend/src/services/api.ts`: the persisted-session data shapes.

Conventions: TypeScript string-literal union types are embedded as `String`;
optional (`?`) fields and `T | null` fields are embedded as `Option`;
JavaScript numbers are embedded as `JNum` (an explicit NaN / infinity /
finite-rational datatype) where NaN behaviour matters, and as `ℚ` or `Nat`
where it does not; wall-clock `Date` fields are not modelled (no modelled
operation reads them).  `JSON.parse` of a terminal payload is an external
runtime function and is passed as an opaque `String → Option _` parameter.
-/

/-- A JavaScript number: NaN, the two infinities, or a finite value
(embedded as a rational). -/
inductive JNum where
  | nan : JNum
  | posInf : JNum
  | negInf : JNum
  | fin : ℚ → JNum
  deriving DecidableEq, Repr

/-- `Number.isFinite` on a JavaScript number. -/
def JNum.isFinite : JNum → Bool
  | .fin _ => true
  | _ => false

/-- An untyped JavaScript value, as found in a tool call's argument map
(`Record<string, unknown>`): the remote agent is not trusted to send a
fixed schema. -/
inductive JsVal where
  | undefined : JsVal
  | null : JsVal
  | num : JNum → JsVal
  | str : String → JsVal
  | bool : Bool → JsVal
  deriving DecidableEq, Repr

/-- Property lookup on an argument map: an absent key reads as `undefined`. -/
def jsLookup (args : List (String × JsVal)) (key : String) : JsVal :=
  match args.find? (fun p => p.1 = key) with
  | some p => p.2
  | none => .undefined

/-- The JavaScript nullish-coalescing operator `v ?? d`. -/
def jsCoalesce (v : JsVal) (d : JsVal) : JsVal :=
  match v with
  | .undefined => d
  | .null => d
  | x => x

/-- JavaScript `x + 1` on a possibly-undefined numeric field
(`none` models an absent property, which reads as `undefined`):
`undefined + 1` is `NaN`, `NaN + 1` is `NaN`, `Infinity + 1` is
`Infinity`, and a finite number is incremented. -/
def jsIncr : Option JNum → Option JNum
  | none => some .nan
  | some .nan => some .nan
  | some .posInf => some .posInf
  | some .negInf => some .negInf
  | some (.fin q) => some (.fin (q + 1))

/-- One scored issue of an analysis result, with its fix lifecycle
(interface `FeedbackItem` of the analysis store, `src/unnamed/part_000`).
The optional fields `status`, `fix_clip_url`, `fix_clip_blob_name`,
`fix_feedback` and `fix_attempts` default to absent: an absent `status`
reads as the implicit `unfixed` default and an absent `fix_attempts`
reads as zero attempts. -/
structure FeedbackItem where
  timestamp_seconds : ℚ
  category : String
  severity : String
  title : String
  action : Option String := none
  description : String
  status : Option String := none
  fix_clip_url : Option String := none
  fix_clip_blob_name : Option String := none
  fix_feedback : Option String := none
  fix_attempts : Option Nat := none
  deriving DecidableEq, Repr

/-- Terminal payload of a fix-evaluation request (interface `FixResult`). -/
structure FixResult where
  is_fixed : Bool
  explanation : String
  tips : Option String := none
  deriving DecidableEq, Repr

/-- The structured analysis result (interface `AnalysisResult` of the
analysis store, `src/unnamed/part_000`). -/
structure AnalysisResult where
  overall_score : ℚ
  summary : String
  song_name : Option String := none
  song_artist : Option String := none
  feedback_items : List FeedbackItem
  strengths : List String
  thought_signature : Option String
  comparison_summary : Option String := none
  ig_postable : Option Bool := none
  ig_verdict : Option String := none
  deriving DecidableEq, Repr

/-- The analysis store's state (`useAnalysisStore`, `src/unnamed/part_000`). -/
structure AnalysisState where
  isAnalyzing : Bool
  analysisStatus : String
  thinkingContent : String
  currentAnalysis : Option AnalysisResult
  highlightedFeedbackIndex : Option ℤ
  fixModalOpen : Bool
  fixModalFeedbackIndex : Option ℤ
  fixEvaluating : Bool
  fixResult : Option FixResult
  analysisHistory : List AnalysisResult
  deriving DecidableEq, Repr

/-- The analysis store's initial state. -/
def AnalysisState.init : AnalysisState :=
  { isAnalyzing := false
    analysisStatus := ""
    thinkingContent := ""
    currentAnalysis := none
    highlightedFeedbackIndex := none
    fixModalOpen := false
    fixModalFeedbackIndex := none
    fixEvaluating := false
    fixResult := none
    analysisHistory := [] }

/-- `startAnalysis` action. -/
def startAnalysis (s : AnalysisState) : AnalysisState :=
  { s with isAnalyzing := true, analysisStatus := "Starting..."
           thinkingContent := "", currentAnalysis := none }

/-- `setStatus` action: replaces the status text, never accumulates. -/
def setStatus (status : String) (s : AnalysisState) : AnalysisState :=
  { s with analysisStatus := status }

/-- `appendThinking` action: appends to the thinking transcript. -/
def appendThinking (content : String) (s : AnalysisState) : AnalysisState :=
  { s with thinkingContent := s.thinkingContent ++ content }

/-- `setAnalysisResult` action: installs the result and appends it to the
history. -/
def setAnalysisResult (result : AnalysisResult) (s : AnalysisState) : AnalysisState :=
  { s with isAnalyzing := false, currentAnalysis := some result
           analysisHistory := s.analysisHistory ++ [result] }

/-- `setHighlightedFeedback` action. -/
def setHighlightedFeedback (index : Option ℤ) (s : AnalysisState) : AnalysisState :=
  { s with highlightedFeedbackIndex := index }

/-- `setFixResult` action. -/
def setFixResult (result : Option FixResult) (s : AnalysisState) : AnalysisState :=
  { s with fixResult := result, fixEvaluating := false }

/-- `setFixEvaluating` action. -/
def setFixEvaluating (evaluating : Bool) (s : AnalysisState) : AnalysisState :=
  { s with fixEvaluating := evaluating }

/-- `reset` action of the analysis store. -/
def resetAnalysisStore (s : AnalysisState) : AnalysisState :=
  { s with isAnalyzing := false, analysisStatus := "", thinkingContent := ""
           currentAnalysis := none, fixModalOpen := false
           fixModalFeedbackIndex := none, fixEvaluating := false
           fixResult := none }

/-- List-level core of `updateFeedbackItemStatus`
(`src/unnamed/part_000`, lines 125-138): no-op when `index` is out of
bounds (negative or past the end), otherwise the item at `index` gets
the new status, its explanation overwritten when one is supplied
(`fixFeedback ?? items[index].fix_feedback`), and its attempt counter
incremented (`(items[index].fix_attempts ?? 0) + 1`).  The index is an
integer because the JavaScript caller may pass any number. -/
def applyStatusUpdate (index : ℤ) (status : String) (fixFeedback : Option String)
    (items : List FeedbackItem) : List FeedbackItem :=
  if index < 0 ∨ (items.length : ℤ) ≤ index then items
  else
    match items.get? index.toNat with
    | none => items
    | some old =>
        items.set index.toNat
          { old with status := some status
                     fix_feedback := fixFeedback <|> old.fix_feedback
                     fix_attempts := some (old.fix_attempts.getD 0 + 1) }

/-- `updateFeedbackItemStatus(index, status, fixFeedback)` on the store:
a silent no-op when there is no current analysis, otherwise the
list-level update on its feedback items. -/
def updateFeedbackItemStatus (index : ℤ) (status : String)
    (fixFeedback : Option String) (s : AnalysisState) : AnalysisState :=
  match s.currentAnalysis with
  | none => s
  | some a =>
      { s with
        currentAnalysis :=
          some { a with feedback_items := applyStatusUpdate index status fixFeedback a.feedback_items } }

/-- One queued `updateStatus` call: index, status, optional explanation. -/
structure StatusCall where
  index : ℤ
  status : String
  fixFeedback : Option String
  deriving DecidableEq, Repr

/-- A sequence of `updateStatus` calls applied in order to the store. -/
def runStatusCalls (calls : List StatusCall) (s : AnalysisState) : AnalysisState :=
  calls.foldl (fun st c => updateFeedbackItemStatus c.index c.status c.fixFeedback st) s

/-- The same sequence at the list level. -/
def runListStatusCalls (calls : List StatusCall) (items : List FeedbackItem) : List FeedbackItem :=
  calls.foldl (fun l c => applyStatusUpdate c.index c.status c.fixFeedback l) items

/-- The attempt counter of the item at position `i` (`fix_attempts ?? 0`);
zero when `i` is out of range. -/
def attemptsOf (items : List FeedbackItem) (i : Nat) : Nat :=
  ((items.get? i).map (fun f => f.fix_attempts.getD 0)).getD 0

/-- A video slot of the Session Model (interface `SessionVideo` of
`useSessionStore`, `src/unnamed/part_002`).  The wall-clock `createdAt`
field is not modelled: no modelled operation reads it. -/
structure SessionVideo where
  url : String
  blobName : String
  score : Option ℚ := none
  thoughtSignature : Option String := none
  deriving DecidableEq, Repr

/-- A practice clip of the Session Model (interface `PracticeClip`);
`createdAt` is not modelled. -/
structure PracticeClip where
  id : String
  url : String
  blobName : String
  sectionStart : Option ℚ := none
  sectionEnd : Option ℚ := none
  focusHint : Option String := none
  deriving DecidableEq, Repr

/-- A persisted feedback item as returned by the session store
(`feedback_items` element shape of `VideoAnalysisData` /
`PracticeClipData` in `src/frontend/src/services/api.ts`). -/
structure PersistedFeedbackItem where
  timestamp_seconds : ℚ
  category : String
  severity : String
  title : String
  description : String
  deriving DecidableEq, Repr

/-- Persisted original/final video data (interface `VideoAnalysisData`
of `src/frontend/src/services/api.ts`). -/
structure VideoAnalysisData where
  url : String
  blob_name : String
  score : Option ℚ
  summary : Option String
  feedback_items : List PersistedFeedbackItem
  strengths : List String
  thought_signature : Option String
  analyzed_at : Option String
  deriving DecidableEq, Repr

/-- Persisted practice clip data (interface `PracticeClipData`). -/
structure PracticeClipData where
  clip_number : Nat
  url : String
  blob_name : String
  section_start : Option ℚ
  section_end : Option ℚ
  focus_hint : Option String
  feedback : Option String
  score : Option ℚ
  feedback_items : List PersistedFeedbackItem
  strengths : List String
  thought_signature : Option String
  created_at : String
  deriving DecidableEq, Repr

/-- A fully fetched persisted session (interface `FullSession`). -/
structure FullSession where
  session_id : String
  user_id : String
  created_at : String
  updated_at : String
  original_video : Option VideoAnalysisData
  practice_clips : List PracticeClipData
  final_video : Option VideoAnalysisData
  improvement : Option ℚ
  deriving DecidableEq, Repr

/-- The Session Model's state (`useSessionStore`, `src/unnamed/part_002`).
The sidebar session list (`sessions`) and the recorder configuration
fields are not modelled: the modelled operations either never touch them
or only receive them from external I/O.  The `activeVideoType` union
`'original' | 'practice' | 'final'` is embedded as `String`. -/
structure SessionState where
  sessionId : Option String
  originalVideo : Option SessionVideo
  practiceClips : List PracticeClip
  finalVideo : Option SessionVideo
  activeVideoType : String
  currentVideoUrl : Option String
  selectedPracticeClipId : Option String
  isRecorderOpen : Bool
  deriving DecidableEq, Repr

/-- The Session Model's initial state. -/
def SessionState.init : SessionState :=
  { sessionId := none, originalVideo := none, practiceClips := []
    finalVideo := none, activeVideoType := "original", currentVideoUrl := none
    selectedPracticeClipId := none, isRecorderOpen := false }

/-- `loadFromBackend(data)`: hydrates the Session Model from a persisted
session (`src/unnamed/part_002`, lines 108-160).  The displayed slot is
the final video when one is persisted, else the original, else nothing. -/
def loadFromBackend (data : FullSession) (s : SessionState) : SessionState :=
  let originalVideo : Option SessionVideo := data.original_video.map fun v =>
    { url := v.url, blobName := v.blob_name, score := v.score
      thoughtSignature := v.thought_signature }
  let practiceClips : List PracticeClip := data.practice_clips.enum.map fun p =>
    { id := "clip_" ++ toString p.1 ++ "_" ++ toString p.2.clip_number
      url := p.2.url, blobName := p.2.blob_name
      sectionStart := p.2.section_start, sectionEnd := p.2.section_end
      focusHint := p.2.focus_hint }
  let finalVideo : Option SessionVideo := data.final_video.map fun v =>
    { url := v.url, blobName := v.blob_name, score := v.score
      thoughtSignature := v.thought_signature }
  let view : String × Option String :=
    match finalVideo with
    | some fv => ("final", some fv.url)
    | none =>
        match originalVideo with
        | some ov => ("original", some ov.url)
        | none => ("original", none)
  { s with sessionId := some data.session_id
           originalVideo := originalVideo
           practiceClips := practiceClips
           finalVideo := finalVideo
           activeVideoType := view.1
           currentVideoUrl := view.2
           selectedPracticeClipId := none
           isRecorderOpen := false }

/-- `updateOriginalAnalysis(score, thoughtSignature)`: stores the score
and continuation token on the original slot, if one exists. -/
def updateOriginalAnalysis (score : ℚ) (thoughtSignature : Option String)
    (s : SessionState) : SessionState :=
  { s with originalVideo := s.originalVideo.map fun v =>
      { v with score := some score, thoughtSignature := thoughtSignature } }

/-- `updateFinalAnalysis(score, thoughtSignature)`: same for the final slot. -/
def updateFinalAnalysis (score : ℚ) (thoughtSignature : Option String)
    (s : SessionState) : SessionState :=
  { s with finalVideo := s.finalVideo.map fun v =>
      { v with score := some score, thoughtSignature := thoughtSignature } }

/-- The value of `const source = (video && video.score != null) ? video : lastPractice`
in `restoreAnalysisFromSession`: either a persisted video slot or a
persisted practice clip. -/
inductive RestoreSource where
  | video : VideoAnalysisData → RestoreSource
  | clip : PracticeClipData → RestoreSource
  deriving DecidableEq, Repr

/-- `source.score` on either shape. -/
def RestoreSource.score : RestoreSource → Option ℚ
  | .video v => v.score
  | .clip c => c.score

/-- `('summary' in source ? source.summary : source.feedback) ?? ''`:
a video slot carries a `summary` property, a practice clip a `feedback`
property. -/
def RestoreSource.summaryText : RestoreSource → String
  | .video v => v.summary.getD ""
  | .clip c => c.feedback.getD ""

/-- `source.feedback_items ?? []`. -/
def RestoreSource.items : RestoreSource → List PersistedFeedbackItem
  | .video v => v.feedback_items
  | .clip c => c.feedback_items

/-- `source.strengths ?? []`. -/
def RestoreSource.strengthsOf : RestoreSource → List String
  | .video v => v.strengths
  | .clip c => c.strengths

/-- `source.thought_signature ?? null`. -/
def RestoreSource.signature : RestoreSource → Option String
  | .video v => v.thought_signature
  | .clip c => c.thought_signature

/-- One restored feedback item (`src/frontend/src/App.tsx`, lines 40-46):
only `timestamp_seconds`, `category`, `severity`, `title` and
`description` are carried over; every fix-lifecycle field is left at its
absent default. -/
def restoredItem (f : PersistedFeedbackItem) : FeedbackItem :=
  { timestamp_seconds := f.timestamp_seconds, category := f.category
    severity := f.severity, title := f.title, description := f.description }

/-- The `AnalysisResult` object built from a chosen restore source with
score `sc` (`src/frontend/src/App.tsx`, lines 37-49). -/
def resultOfSource (src : RestoreSource) (sc : ℚ) : AnalysisResult :=
  { overall_score := sc
    summary := src.summaryText
    feedback_items := src.items.map restoredItem
    strengths := src.strengthsOf
    thought_signature := src.signature }

/-- `restoreAnalysisFromSession(data)` (`src/frontend/src/App.tsx`,
lines 26-52): `video` is `final_video ?? original_video`; a scored
`video` is the source, otherwise the most recent practice clip; the
analysis view is restored only when the chosen source has a score. -/
def restoreAnalysisFromSession (data : FullSession) : Option AnalysisResult :=
  let video : Option VideoAnalysisData := data.final_video <|> data.original_video
  let lastPractice : Option PracticeClipData := data.practice_clips.getLast?
  let source : Option RestoreSource :=
    match video with
    | some v => if v.score.isSome then some (.video v) else lastPractice.map .clip
    | none => lastPractice.map .clip
  match source with
  | some src =>
      match src.score with
      | some sc => some (resultOfSource src sc)
      | none => none
  | none => none

/-- The result of a restore source when, and only when, it is scored. -/
def scoredResult (src : RestoreSource) : Option AnalysisResult :=
  src.score.map (resultOfSource src)

/-- Modelled from the spec's words, for comparison with the code:
"prefer the final video's result if it has a score, else the
original's, else the most recent practice clip's" — the priority chain
final > original > most recent practice over scored sources. -/
def specRestorePriority (data : FullSession) : Option AnalysisResult :=
  (data.final_video.bind fun v => scoredResult (.video v)) <|>
  (data.original_video.bind fun v => scoredResult (.video v)) <|>
  (data.practice_clips.getLast?.bind fun c => scoredResult (.clip c))

/-- The amended restore priority, in the spec's style: when a final
video is persisted, its scored result is preferred and otherwise the
most recent practice clip's scored result is used — the original is
never consulted; only when no final video is persisted does the
original's scored result take priority over the most recent practice
clip's. -/
def amendedRestorePriority (data : FullSession) : Option AnalysisResult :=
  let practiceFallback : Option AnalysisResult :=
    data.practice_clips.getLast?.bind fun c => scoredResult (.clip c)
  match data.final_video with
  | some v => scoredResult (.video v) <|> practiceFallback
  | none =>
      match data.original_video with
      | some v => scoredResult (.video v) <|> practiceFallback
      | none => practiceFallback

/-- The typed event kinds of one streaming ingestion sequence
(`analyzeVideoStream` in `src/frontend/src/services/api.ts`). -/
inductive ChunkType where
  | status : ChunkType
  | thinking : ChunkType
  | analysis : ChunkType
  | complete : ChunkType
  | error : ChunkType
  deriving DecidableEq, Repr

/-- One streamed event: a kind and its text content. -/
structure Chunk where
  type : ChunkType
  content : String
  deriving DecidableEq, Repr

/-- The combined in-memory state touched by `runStreamingAnalysis` and
`handleLoadSession` (`src/frontend/src/App.tsx`): the two stores plus
the component-local accumulator `analysisText` and the local
`originalFeedback` / `finalFeedback` / `showComparison` React state
(feedback summaries are `(title, category)` pairs). -/
structure AppState where
  session : SessionState
  analysis : AnalysisState
  analysisText : String
  originalFeedback : List (String × String)
  finalFeedback : List (String × String)
  showComparison : Bool
  deriving DecidableEq, Repr

/-- One step of the `switch` in `runStreamingAnalysis`
(`src/frontend/src/App.tsx`, lines 128-163), for a request declared with
video role `videoType`.  `parse` is the opaque `JSON.parse` of the
`complete` payload: `none` models a payload on which `JSON.parse`
throws.  On a parsed `complete`, the result is installed, the declared
slot's score and continuation token updated, and the local feedback
summary / comparison state set; the asynchronous session-list refresh
(`fetchUserSessions` → `setSessions`) is external I/O and not modelled.
On a `complete` whose payload fails to parse, only the visible status is
set to "Analysis complete (parsing error)". -/
def processChunk (parse : String → Option AnalysisResult) (videoType : String)
    (c : Chunk) (s : AppState) : AppState :=
  match c.type with
  | .status => { s with analysis := setStatus c.content s.analysis }
  | .thinking => { s with analysis := appendThinking c.content s.analysis }
  | .analysis => { s with analysisText := s.analysisText ++ c.content }
  | .complete =>
      match parse c.content with
      | some result =>
          let s1 := { s with analysis := setAnalysisResult result s.analysis }
          let feedbackList := result.feedback_items.map fun f => (f.title, f.category)
          if videoType = "final" then
            { s1 with
              session := updateFinalAnalysis result.overall_score result.thought_signature s1.session
              finalFeedback := feedbackList
              showComparison := true }
          else
            { s1 with
              session := updateOriginalAnalysis result.overall_score result.thought_signature s1.session
              originalFeedback := feedbackList }
      | none => { s with analysis := setStatus "Analysis complete (parsing error)" s.analysis }
  | .error => { s with analysis := setStatus ("Error: " ++ c.content) s.analysis }

/-- The whole event sequence of one ingestion request, applied in
arrival order. -/
def runStream (parse : String → Option AnalysisResult) (videoType : String)
    (chunks : List Chunk) (s : AppState) : AppState :=
  chunks.foldl (fun st c => processChunk parse videoType c st) s

/-- `handleLoadSession` (`src/frontend/src/App.tsx`, lines 235-247):
hydrate the Session Model, reset the analysis store, restore the
analysis view per `restoreAnalysisFromSession`, and clear the local
comparison state. -/
def handleLoadSession (data : FullSession) (s : AppState) : AppState :=
  let s1 := { s with session := loadFromBackend data s.session }
  let s2 := { s1 with analysis := resetAnalysisStore s1.analysis }
  let s3 :=
    match restoreAnalysisFromSession data with
    | some r => { s2 with analysis := setAnalysisResult r s2.analysis }
    | none => s2
  { s3 with showComparison := false, originalFeedback := [], finalFeedback := [] }

/-- Erases the component-local `analysisText` accumulator, leaving every
other component of the state intact. -/
def eraseAnalysisText (s : AppState) : AppState :=
  { s with analysisText := "" }

/-- A UI side effect dispatched by a tool-call handler through its
orchestrator callback (`CoachPanel` props `onOpenFixModal`, `onSeekTo`,
`onShowOriginal`, `onRecordFinal`, `onHighlightFeedback`,
`onSwitchTab`).  `openFixModal` and `highlightFeedback` carry the raw
coalesced argument, since the handler forwards it without validation;
`recordFinalCountdown` stands for the 3-2-1 countdown whose completion
callback opens the final-take recorder. -/
inductive UIEffect where
  | openFixModal : JsVal → UIEffect
  | seek : ℚ → JsVal → UIEffect
  | showOriginal : UIEffect
  | recordFinalCountdown : UIEffect
  | highlightFeedback : JsVal → UIEffect
  | switchTab : String → UIEffect
  deriving DecidableEq, Repr

/-- Payload of an outbound `tool_result` frame: the default
`{ status: 'ok' }` or `{ status: 'error', message }`. -/
inductive ToolResultPayload where
  | ok : ToolResultPayload
  | error : String → ToolResultPayload
  deriving DecidableEq, Repr

/-- State touched by `handleToolCall`
(`src/frontend/src/components/CoachPanel.tsx`, lines 62-130):
the playback position (moved by `onSeekTo`, which seeks the video player
and plays), the dispatched UI effects, and the `tool_result` frames sent
back over the channel (name, payload).  The chat transcript
(`addMessage('system', …)`) is component-local display state with no
protocol or store effect and is not modelled. -/
structure CoachState where
  playbackPos : Option ℚ
  effects : List UIEffect
  sentResults : List (String × ToolResultPayload)
  deriving DecidableEq, Repr

/-- JavaScript truthiness of an argument value (for `x || 'latest'`). -/
def jsTruthy : JsVal → Bool
  | .undefined => false
  | .null => false
  | .num .nan => false
  | .num (.fin q) => decide (q ≠ 0)
  | .num _ => true
  | .str t => decide (t ≠ "")
  | .bool b => b

/-- The `seek_video` validation
(`typeof timestamp === 'number' && Number.isFinite(timestamp) && timestamp >= 0`):
true exactly for a finite, non-negative number. -/
def validSeekTimestamp : JsVal → Bool
  | .num (.fin q) => decide (0 ≤ q)
  | _ => false

/-- The fixed tool vocabulary of `handleToolCall`'s dispatch switch. -/
def knownToolNames : List String :=
  ["open_feedback_modal", "seek_video", "show_original", "record_final",
   "show_feedback_card", "switch_tab"]

/-- `handleToolCall(name, args)`
(`src/frontend/src/components/CoachPanel.tsx`, lines 62-130).  Every
branch mirrors the source switch; a name outside the vocabulary falls
through the switch with no effect and no `tool_result` (only the
entry-point `console.log`).  `sendResult` appends one `tool_result`
frame keyed by the tool's name. -/
def handleToolCall (name : String) (args : List (String × JsVal)) (s : CoachState) : CoachState :=
  let sendResult : ToolResultPayload → CoachState → CoachState := fun p st =>
    { st with sentResults := st.sentResults ++ [(name, p)] }
  match name with
  | "open_feedback_modal" =>
      let feedbackIndex := jsCoalesce (jsLookup args "index") (.num (.fin 0))
      sendResult .ok { s with effects := s.effects ++ [.openFixModal feedbackIndex] }
  | "seek_video" =>
      let timestamp := jsCoalesce (jsLookup args "timestamp_seconds") (.num (.fin 0))
      let whichVideo :=
        let w := jsLookup args "which_video"
        if jsTruthy w then w else .str "latest"
      match timestamp with
      | .num (.fin q) =>
          if 0 ≤ q then
            sendResult .ok
              { s with playbackPos := some q, effects := s.effects ++ [.seek q whichVideo] }
          else sendResult (.error "invalid timestamp") s
      | _ => sendResult (.error "invalid timestamp") s
  | "show_original" =>
      sendResult .ok { s with effects := s.effects ++ [.showOriginal] }
  | "record_final" =>
      sendResult .ok { s with effects := s.effects ++ [.recordFinalCountdown] }
  | "show_feedback_card" =>
      let feedbackIndex := jsCoalesce (jsLookup args "index") (.num (.fin 0))
      sendResult .ok { s with effects := s.effects ++ [.highlightFeedback feedbackIndex] }
  | "switch_tab" =>
      let tab := jsCoalesce (jsLookup args "tab") (.str "original")
      match tab with
      | .str t =>
          if ["original", "practice", "final"].contains t then
            sendResult .ok { s with effects := s.effects ++ [.switchTab t] }
          else s
      | _ => s
  | _ => s

/-- Whether a tool invocation is answered with a `tool_result`:
every known tool except a `switch_tab` whose (coalesced) `tab` argument
is not one of the three tab names. -/
def respondsOnce (name : String) (args : List (String × JsVal)) : Bool :=
  knownToolNames.contains name &&
    (name ≠ "switch_tab" ||
      (match jsCoalesce (jsLookup args "tab") (.str "original") with
       | .str t => ["original", "practice", "final"].contains t
       | _ => false))

/-- The maximum reconnect attempt count of `WebSocketManager`
(`maxReconnectAttempts = 5`). -/
def wsMaxReconnectAttempts : Nat := 5

/-- The base reconnect delay of `WebSocketManager` (2000 ms). -/
def wsBaseDelayMs : Nat := 2000

/-- Reconnection state of the Tool-Call Channel transport
(`src/frontend/src/services/WebSocketManager.ts`): the consecutive
attempt counter, the surfaced connected flag
(`useAppStore.setConnected`), and the currently pending reconnect timer
(`none` when no reconnect is scheduled). -/
structure WSState where
  reconnectAttempts : Nat
  connected : Bool
  scheduledDelayMs : Option Nat
  deriving DecidableEq, Repr

/-- Freshly constructed manager: no attempts, not connected, nothing
scheduled. -/
def WSState.init : WSState :=
  { reconnectAttempts := 0, connected := false, scheduledDelayMs := none }

/-- A `connect(sessionId)` call — manual or fired by a pending timer:
it opens a socket (whose outcome arrives later as an open or close
event) and consumes the pending timer; it does not touch the attempt
counter (lines 19-27). -/
def wsConnectCall (s : WSState) : WSState :=
  { s with scheduledDelayMs := none }

/-- `ws.onopen`: surfaces the connected state and resets the attempt
counter (lines 23-27). -/
def wsOnOpen (s : WSState) : WSState :=
  { s with connected := true, reconnectAttempts := 0 }

/-- `ws.onclose` followed by `attemptReconnect` (lines 44-57): surface
the disconnected state; when the counter is below the cap, increment it
and schedule a reconnect after `2000 * (new counter)` ms; at the cap,
schedule nothing. -/
def wsOnClose (s : WSState) : WSState :=
  if s.reconnectAttempts < wsMaxReconnectAttempts then
    { s with connected := false
             reconnectAttempts := s.reconnectAttempts + 1
             scheduledDelayMs := some (wsBaseDelayMs * (s.reconnectAttempts + 1)) }
  else
    { s with connected := false, scheduledDelayMs := none }

/-- The explanation string recorded on a fix evaluation's feedback item:
`result.explanation + (result.tips ? '\n\nTip: ' + result.tips : '')`
(an empty `tips` string is falsy and appends nothing). -/
def fixExplanationText (r : FixResult) : String :=
  r.explanation ++
    (match r.tips with
     | some t => if t = "" then "" else "\n\nTip: " ++ t
     | none => "")

/-- State touched by the fix-evaluation stream handler
(`FeedbackFixModal.handleRecordComplete`): the modal's local phase and
status, the analysis store, and the session store's
`feedbackAddressed` aggregate.  `feedbackAddressed` is `Option JNum`
because `useSessionStore` (`src/unnamed/part_002`) never declares or
initializes that field: reading it yields `undefined` (`none`). -/
structure FixModalState where
  phase : String
  evaluationStatus : String
  analysis : AnalysisState
  feedbackAddressed : Option JNum
  deriving DecidableEq, Repr

/-- One step of the `switch` in `handleRecordComplete`
(`src/frontend/src/components/FeedbackFixModal.tsx`, lines 60-96) for a
fix-evaluation request declared against feedback item `feedbackIndex`.
On a parsed `complete`: record the fix result, enter the result phase,
update the one feedback item's status per the verdict, and — only on
success — apply `feedbackAddressed: s.feedbackAddressed + 1` (JavaScript
addition on the store's field).  A `complete` whose payload fails to
parse only resets the phase; an `analysis` chunk has no case in this
switch and does nothing. -/
def handleFixChunk (parseFix : String → Option FixResult) (feedbackIndex : ℤ)
    (c : Chunk) (s : FixModalState) : FixModalState :=
  match c.type with
  | .status => { s with evaluationStatus := c.content }
  | .thinking => { s with evaluationStatus := "AI is thinking..." }
  | .analysis => s
  | .complete =>
      match parseFix c.content with
      | some r =>
          let s1 := { s with analysis := setFixResult (some r) s.analysis, phase := "result" }
          let updated := updateFeedbackItemStatus feedbackIndex
            (if r.is_fixed then "fixed" else "unfixed")
            (some (fixExplanationText r)) s1.analysis
          let s2 := { s1 with analysis := updated }
          if r.is_fixed then { s2 with feedbackAddressed := jsIncr s2.feedbackAddressed }
          else s2
      | none => { s with phase := "idle" }
  | .error => { s with evaluationStatus := "Error: " ++ c.content, phase := "idle" }

/-- A status update never changes the number of feedback items. -/
theorem applyStatusUpdate_length (index : ℤ) (status : String) (fixFeedback : Option String)
    (items : List FeedbackItem) :
    (applyStatusUpdate index status fixFeedback items).length = items.length := by
  unfold applyStatusUpdate
  split
  · rfl
  · split
    · rfl
    · simp [List.length_set]

/-- Effect of one status update on one item's attempt counter: the
counter at `i` grows by one exactly when the call names `i` and `i` is
in bounds, and is untouched otherwise. -/
theorem attemptsOf_applyStatusUpdate (index : ℤ) (status : String)
    (fixFeedback : Option String) (items : List FeedbackItem) (i : Nat) :
    attemptsOf (applyStatusUpdate index status fixFeedback items) i =
      attemptsOf items i + (if index = (i : ℤ) ∧ i < items.length then 1 else 0) := by
  unfold applyStatusUpdate
  split
  · rename_i hoob
    have hcond : ¬(index = (i : ℤ) ∧ i < items.length) := by
      rintro ⟨rfl, hlt⟩
      rcases hoob with h | h
      · omega
      · have : (i : ℤ) < (items.length : ℤ) := by exact_mod_cast hlt
        omega
    simp [hcond]
  · rename_i hin
    push_neg at hin
    obtain ⟨h0, hlen⟩ := hin
    have h0' : 0 ≤ index := by omega
    have hlt : index.toNat < items.length := by omega
    split
    · rename_i hnone
      exact absurd hnone (by simp [List.get?_eq_none, Nat.not_le_of_lt hlt])
    · rename_i old hsome
      by_cases hi : i < items.length
      · rw [attemptsOf, List.get?_set_of_lt _ _ hi]
        by_cases heq : index.toNat = i
        · subst heq
          have hidx : index = ((index.toNat : Nat) : ℤ) := (Int.toNat_of_nonneg h0').symm
          have hget : items[index.toNat] = old := by
            simpa [List.get?_eq_getElem?, List.getElem?_eq_getElem hlt] using hsome
          simp [attemptsOf, hsome, ← hidx, hi, hget]
        · have hne : index ≠ (i : ℤ) := by
            intro h; apply heq; omega
          simp [heq, hne, attemptsOf]
      · have hnone₁ : items.get? i = none := by simp [List.get?_eq_none]; omega
        have hnone₂ : ∀ a : FeedbackItem, (items.set index.toNat a).get? i = none := by
          intro a; simp [List.get?_eq_none]; omega
        rw [attemptsOf, hnone₂, attemptsOf, hnone₁]
        simp [hi]

/-- Across any call sequence, an in-bounds item's attempt counter grows
by exactly the number of calls naming its index. -/
theorem attemptsOf_runListStatusCalls (calls : List StatusCall)
    (items : List FeedbackItem) (i : Nat) (hi : i < items.length) :
    attemptsOf (runListStatusCalls calls items) i =
      attemptsOf items i + (calls.filter fun c => c.index = (i : ℤ)).length := by
  induction calls generalizing items with
  | nil => simp [runListStatusCalls]
  | cons c cs ih =>
    have hlen := applyStatusUpdate_length c.index c.status c.fixFeedback items
    have hi' : i < (applyStatusUpdate c.index c.status c.fixFeedback items).length := by
      rw [hlen]; exact hi
    have hstep : runListStatusCalls (c :: cs) items =
        runListStatusCalls cs (applyStatusUpdate c.index c.status c.fixFeedback items) := rfl
    rw [hstep, ih _ hi', attemptsOf_applyStatusUpdate]
    by_cases hc : c.index = (i : ℤ)
    · simp [List.filter_cons, hc, hi]; omega
    · simp [List.filter_cons, hc, hi]

/-- The number of feedback items is invariant across a call sequence. -/
theorem runListStatusCalls_length (calls : List StatusCall) (items : List FeedbackItem) :
    (runListStatusCalls calls items).length = items.length := by
  induction calls generalizing items with
  | nil => rfl
  | cons c cs ih =>
    have hstep : runListStatusCalls (c :: cs) items =
        runListStatusCalls cs (applyStatusUpdate c.index c.status c.fixFeedback items) := rfl
    rw [hstep, ih, applyStatusUpdate_length]

/-- At store level, a call sequence applied to a store holding an
analysis keeps holding that analysis with the list-level update applied. -/
theorem runStatusCalls_currentAnalysis (calls : List StatusCall)
    (s : AnalysisState) (a : AnalysisResult) (h : s.currentAnalysis = some a) :
    (runStatusCalls calls s).currentAnalysis =
      some { a with feedback_items := runListStatusCalls calls a.feedback_items } := by
  induction calls generalizing s a with
  | nil => simpa [runStatusCalls, runListStatusCalls] using h
  | cons c cs ih =>
    have hstep : runStatusCalls (c :: cs) s =
        runStatusCalls cs (updateFeedbackItemStatus c.index c.status c.fixFeedback s) := rfl
    have h1 : (updateFeedbackItemStatus c.index c.status c.fixFeedback s).currentAnalysis =
        some { a with feedback_items := applyStatusUpdate c.index c.status c.fixFeedback a.feedback_items } := by
      simp [updateFeedbackItemStatus, h]
    rw [hstep, ih _ _ h1]
    rfl

/-- The attempt counter of item `i` after running a call sequence from
state `s` (zero when no analysis is present). -/
def attemptsAfter (s : AnalysisState) (calls : List StatusCall) (i : Nat) : Nat :=
  match (runStatusCalls calls s).currentAnalysis with
  | some a => attemptsOf a.feedback_items i
  | none => 0

/-- A concrete feedback item used by the witnesses. -/
def itemA : FeedbackItem :=
  { timestamp_seconds := 5, category := "vocals", severity := "critical"
    title := "Pitchy chorus", description := "Off pitch in the chorus" }

/-- A second concrete feedback item used by the witnesses. -/
def itemB : FeedbackItem :=
  { timestamp_seconds := 12, category := "guitar", severity := "minor"
    title := "Late strum", description := "Strum slightly late" }

/-- A concrete analysis result with two unfixed items. -/
def sampleAnalysis : AnalysisResult :=
  { overall_score := 72, summary := "ok", feedback_items := [itemA, itemB]
    strengths := ["energy"], thought_signature := none }

/-- A store holding `sampleAnalysis`. -/
def sampleStore : AnalysisState :=
  { AnalysisState.init with currentAnalysis := some sampleAnalysis }

/-- A concrete call sequence: two in-bounds calls naming index 0, one
naming index 1, and two out-of-bounds calls. -/
def c6calls : List StatusCall :=
  [⟨0, "fixed", some "good"⟩, ⟨1, "skipped", none⟩, ⟨0, "unfixed", none⟩,
   ⟨5, "fixed", none⟩, ⟨-1, "fixed", none⟩]

/-- **C6**: `updateStatus` with an out-of-bounds index is a silent no-op;
with a valid index it sets the item's status, overwrites the explanation
when one is supplied, and increments that item's attempt counter; hence,
over any sequence of such calls, an item's attempt counter is
non-decreasing and ends up equal to the number of in-bounds calls naming
its index (starting from the counter's default of zero). -/
theorem updateStatus_attempt_counter_invariant
    (s₀ : AnalysisState) (a₀ : AnalysisResult)
    (h₀ : s₀.currentAnalysis = some a₀)
    (calls : List StatusCall) (i : Nat)
    (hi : i < a₀.feedback_items.length)
    (hz : attemptsOf a₀.feedback_items i = 0) :
    (∀ index status fixFeedback,
        (index < 0 ∨ (a₀.feedback_items.length : ℤ) ≤ index) →
        updateFeedbackItemStatus index status fixFeedback s₀ = s₀) ∧
    (∀ index status fixFeedback old,
        a₀.feedback_items.get? index.toNat = some old → 0 ≤ index →
        (updateFeedbackItemStatus index status fixFeedback s₀).currentAnalysis =
          some { a₀ with feedback_items := a₀.feedback_items.set index.toNat { old with status := some status, fix_feedback := fixFeedback <|> old.fix_feedback, fix_attempts := some (old.fix_attempts.getD 0 + 1) } }) ∧
    attemptsAfter s₀ calls i = (calls.filter fun c => c.index = (i : ℤ)).length ∧
    (∀ n, attemptsAfter s₀ (calls.take n) i ≤ attemptsAfter s₀ (calls.take (n + 1)) i) := by
  refine ⟨?_, ?_, ?_, ?_⟩
  · intro index status fixFeedback hoob
    have hno : applyStatusUpdate index status fixFeedback a₀.feedback_items = a₀.feedback_items := by
      unfold applyStatusUpdate; rw [if_pos hoob]
    cases s₀
    simp only at h₀
    subst h₀
    simp [updateFeedbackItemStatus, hno]
  · intro index status fixFeedback old hold hnn
    have hlt : index.toNat < a₀.feedback_items.length := by
      by_contra hc
      rw [List.get?_eq_none.mpr (by omega)] at hold
      exact absurd hold (by simp)
    have hcond : ¬(index < 0 ∨ (a₀.feedback_items.length : ℤ) ≤ index) := by
      push_neg
      constructor
      · omega
      · omega
    rw [List.get?_eq_getElem?] at hold
    simp [updateFeedbackItemStatus, h₀, applyStatusUpdate, hcond, hold]
  · have hca := runStatusCalls_currentAnalysis calls s₀ a₀ h₀
    simp [attemptsAfter, hca, attemptsOf_runListStatusCalls calls _ i hi, hz]
  · intro n
    have h₁ := runStatusCalls_currentAnalysis (calls.take n) s₀ a₀ h₀
    have h₂ := runStatusCalls_currentAnalysis (calls.take (n + 1)) s₀ a₀ h₀
    simp only [attemptsAfter, h₁, h₂]
    rw [List.take_succ]
    cases hc : calls[n]? with
    | none => simp [hc]
    | some c =>
        have happ : runListStatusCalls (calls.take n ++ [c]) a₀.feedback_items =
            applyStatusUpdate c.index c.status c.fixFeedback
              (runListStatusCalls (calls.take n) a₀.feedback_items) := by
          simp [runListStatusCalls, List.foldl_append]
        simp only [Option.toList_some, happ, attemptsOf_applyStatusUpdate]
        exact Nat.le_add_right _ _

/-- Witness for C6: on the sample store, the sequence `c6calls` leaves
item 0 with exactly two attempts, and an out-of-bounds call is a no-op. -/
theorem updateStatus_attempt_counter_invariant_witness :
    attemptsAfter sampleStore c6calls 0 = 2 ∧
    updateFeedbackItemStatus 5 "fixed" none sampleStore = sampleStore := by
  have h := updateStatus_attempt_counter_invariant sampleStore sampleAnalysis rfl
    c6calls 0 (by decide) (by decide)
  constructor
  · rw [h.2.2.1]; decide
  · exact h.1 5 "fixed" none (by decide)

/-- A concrete combined app state used by the witnesses. -/
def sampleApp : AppState :=
  { session := SessionState.init, analysis := sampleStore, analysisText := ""
    originalFeedback := [], finalFeedback := [], showComparison := false }

/-- **C2**: applying a `complete` event whose payload fails to parse
changes nothing but the visible status, which becomes
"Analysis complete (parsing error)": the analysis result, the feedback
items and every video slot's score are untouched, and nothing in the
sequence semantics re-issues the request. -/
theorem complete_parse_failure_is_noop
    (parse : String → Option AnalysisResult) (videoType : String)
    (payload : String) (s : AppState)
    (h : parse payload = none) :
    processChunk parse videoType ⟨.complete, payload⟩ s =
      { s with analysis := setStatus "Analysis complete (parsing error)" s.analysis } := by
  simp [processChunk, h]

/-- Witness for C2 at a concrete unparseable payload. -/
theorem complete_parse_failure_is_noop_witness :
    processChunk (fun _ => none) "original" ⟨.complete, "not json"⟩ sampleApp =
      { sampleApp with analysis := setStatus "Analysis complete (parsing error)" sampleApp.analysis } :=
  complete_parse_failure_is_noop (fun _ => none) "original" "not json" sampleApp rfl

/-- A chunk changes the erased state the same way regardless of the
accumulated `analysisText`. -/
theorem eraseText_processChunk (parse : String → Option AnalysisResult)
    (videoType : String) (c : Chunk) (s : AppState) :
    eraseAnalysisText (processChunk parse videoType c (eraseAnalysisText s)) =
      eraseAnalysisText (processChunk parse videoType c s) := by
  obtain ⟨t, content⟩ := c
  cases t with
  | status => rfl
  | thinking => rfl
  | analysis => rfl
  | complete =>
      cases hp : parse content with
      | none => simp [processChunk, hp, eraseAnalysisText]
      | some r =>
          simp only [processChunk, hp]
          by_cases hv : videoType = "final" <;> simp [hv, eraseAnalysisText]
  | error => rfl

/-- An `analysis` chunk only grows the erased accumulator. -/
theorem eraseText_analysis_chunk (parse : String → Option AnalysisResult)
    (videoType : String) (content : String) (s : AppState) :
    eraseAnalysisText (processChunk parse videoType ⟨.analysis, content⟩ s) =
      eraseAnalysisText s := rfl

/-- Running a stream factors through erasing the accumulator. -/
theorem eraseText_runStream (parse : String → Option AnalysisResult)
    (videoType : String) (chunks : List Chunk) (s : AppState) :
    eraseAnalysisText (runStream parse videoType chunks (eraseAnalysisText s)) =
      eraseAnalysisText (runStream parse videoType chunks s) := by
  induction chunks generalizing s with
  | nil => rfl
  | cons c cs ih =>
      have h1 : runStream parse videoType (c :: cs) s =
          runStream parse videoType cs (processChunk parse videoType c s) := rfl
      have h2 : runStream parse videoType (c :: cs) (eraseAnalysisText s) =
          runStream parse videoType cs (processChunk parse videoType c (eraseAnalysisText s)) := rfl
      rw [h1, h2, ← ih (processChunk parse videoType c (eraseAnalysisText s)),
        ← ih (processChunk parse videoType c s), eraseText_processChunk]

/-- **C9**: the final structured result is parsed only from the
`complete` payload: deleting every `analysis` (partial-content) chunk
from an event sequence leaves the entire resulting state — analysis
result, feedback items, scores, statuses — unchanged, except for the
write-only `analysisText` accumulator itself. -/
theorem partial_chunks_never_contribute (parse : String → Option AnalysisResult)
    (videoType : String) (chunks : List Chunk) (s : AppState) :
    eraseAnalysisText (runStream parse videoType chunks s) =
      eraseAnalysisText
        (runStream parse videoType (chunks.filter fun c => c.type ≠ ChunkType.analysis) s) := by
  induction chunks generalizing s with
  | nil => rfl
  | cons c cs ih =>
      have h1 : runStream parse videoType (c :: cs) s =
          runStream parse videoType cs (processChunk parse videoType c s) := rfl
      by_cases hc : c.type = ChunkType.analysis
      · obtain ⟨t, content⟩ := c
        simp only at hc
        subst hc
        have hfilter : ((⟨ChunkType.analysis, content⟩ : Chunk) :: cs).filter
            (fun c => c.type ≠ ChunkType.analysis) =
            cs.filter fun c => c.type ≠ ChunkType.analysis := by
          simp [List.filter_cons]
        rw [h1, hfilter]
        calc eraseAnalysisText (runStream parse videoType cs
                (processChunk parse videoType ⟨.analysis, content⟩ s))
            = eraseAnalysisText (runStream parse videoType cs
                (eraseAnalysisText (processChunk parse videoType ⟨.analysis, content⟩ s))) :=
              (eraseText_runStream _ _ _ _).symm
          _ = eraseAnalysisText (runStream parse videoType cs (eraseAnalysisText s)) := by
              rw [eraseText_analysis_chunk]
          _ = eraseAnalysisText (runStream parse videoType cs s) := eraseText_runStream _ _ _ _
          _ = eraseAnalysisText (runStream parse videoType
                (cs.filter fun c => c.type ≠ ChunkType.analysis) s) := ih s
      · have hfilter : (c :: cs).filter (fun c => c.type ≠ ChunkType.analysis) =
            c :: cs.filter fun c => c.type ≠ ChunkType.analysis := by
          simp [List.filter_cons, hc]
        have h2 : runStream parse videoType
            (c :: cs.filter fun c => c.type ≠ ChunkType.analysis) s =
            runStream parse videoType (cs.filter fun c => c.type ≠ ChunkType.analysis)
              (processChunk parse videoType c s) := rfl
        rw [h1, hfilter, h2, ih]

/-- **C3 (amended)**: applying a streamed event never consults the
active session: the handler leaves `sessionId` unchanged and behaves
identically whatever the active session id is — there is no
"is this still the active session" guard, so a late `complete` is
applied unconditionally. -/
theorem processChunk_ignores_active_session (parse : String → Option AnalysisResult)
    (videoType : String) (c : Chunk) (s : AppState) (sid : Option String) :
    (processChunk parse videoType c s).session.sessionId = s.session.sessionId ∧
    processChunk parse videoType c { s with session := { s.session with sessionId := sid } } =
      { processChunk parse videoType c s with
        session := { (processChunk parse videoType c s).session with sessionId := sid } } := by
  obtain ⟨t, content⟩ := c
  cases t with
  | status => exact ⟨rfl, rfl⟩
  | thinking => exact ⟨rfl, rfl⟩
  | analysis => exact ⟨rfl, rfl⟩
  | complete =>
      cases hp : parse content with
      | none => simp [processChunk, hp, setStatus]
      | some r =>
          simp only [processChunk, hp]
          by_cases hv : videoType = "final" <;>
            simp [hv, updateFinalAnalysis, updateOriginalAnalysis, setAnalysisResult]
  | error => exact ⟨rfl, rfl⟩

/-- The persisted session "S2" the user switches to in the C3 scenario. -/
def fsS2 : FullSession :=
  { session_id := "S2", user_id := "1", created_at := "2024-01-01"
    updated_at := "2024-01-02"
    original_video := some
      { url := "u2", blob_name := "b2", score := some 40, summary := some "orig S2"
        feedback_items := [], strengths := [], thought_signature := none
        analyzed_at := none }
    practice_clips := [], final_video := none, improvement := none }

/-- The app state while session "S1" is active and its analysis request
is in flight. -/
def s1App : AppState :=
  { sampleApp with session := { sampleApp.session with sessionId := some "S1" } }

/-- The app state after the user switches to session "S2" while S1's
request is still in flight. -/
def s2App : AppState := handleLoadSession fsS2 s1App

/-- The late result of session S1's in-flight analysis request. -/
def lateS1Result : AnalysisResult :=
  { overall_score := 90, summary := "late S1 result", feedback_items := []
    strengths := [], thought_signature := none }

/-- Counterexample to C3: with session "S2" active, applying the
`complete` event of S1's in-flight request is not discarded — it
overwrites S2's analysis view and original slot score.  The claim
"S2's session model and analysis store are never mutated by S1's late
result" is false at this input. -/
theorem late_complete_mutates_switched_session :
    s2App.session.sessionId = some "S2" ∧
    s2App.analysis.currentAnalysis ≠ some lateS1Result ∧
    (processChunk (fun _ => some lateS1Result) "original" ⟨.complete, "s1 payload"⟩
        s2App).analysis.currentAnalysis = some lateS1Result ∧
    (processChunk (fun _ => some lateS1Result) "original" ⟨.complete, "s1 payload"⟩
        s2App).session.originalVideo.map (fun v => v.score) = some (some 90) := by
  refine ⟨rfl, ?_, rfl, rfl⟩
  decide

/-- A concrete coach-panel state used by the witnesses. -/
def coach0 : CoachState :=
  { playbackPos := none, effects := [], sentResults := [] }

/-- **C4**: the `seek_video` handler validates its (nullish-coalesced)
timestamp to be a finite, non-negative number: an invalid timestamp is
acknowledged with exactly one error `tool_result` while the playback
position and dispatched effects stay untouched; a valid timestamp is
applied (the playback head moves there, a seek effect is dispatched)
and acknowledged with exactly one success `tool_result`. -/
theorem seek_video_validation (args : List (String × JsVal)) (s : CoachState) :
    (validSeekTimestamp (jsCoalesce (jsLookup args "timestamp_seconds") (.num (.fin 0))) = false →
      (handleToolCall "seek_video" args s).playbackPos = s.playbackPos ∧
      (handleToolCall "seek_video" args s).effects = s.effects ∧
      (handleToolCall "seek_video" args s).sentResults =
        s.sentResults ++ [("seek_video", .error "invalid timestamp")]) ∧
    (∀ q : ℚ, jsCoalesce (jsLookup args "timestamp_seconds") (.num (.fin 0)) = .num (.fin q) →
      0 ≤ q →
      (handleToolCall "seek_video" args s).playbackPos = some q ∧
      (handleToolCall "seek_video" args s).sentResults = s.sentResults ++ [("seek_video", .ok)]) := by
  constructor
  · intro hbad
    cases hts : jsCoalesce (jsLookup args "timestamp_seconds") (.num (.fin 0)) with
    | num n =>
        cases n with
        | fin q =>
            rw [hts] at hbad
            simp only [validSeekTimestamp, decide_eq_false_iff_not] at hbad
            simp [handleToolCall, hts, hbad]
        | nan => simp [handleToolCall, hts]
        | posInf => simp [handleToolCall, hts]
        | negInf => simp [handleToolCall, hts]
    | undefined => simp [handleToolCall, hts]
    | null => simp [handleToolCall, hts]
    | str t => simp [handleToolCall, hts]
    | bool b => simp [handleToolCall, hts]
  · intro q hq h0
    simp [handleToolCall, hq, h0]

/-- Witness for C4: timestamp `-1` is rejected with an error result and
no seek, timestamp `30` is applied with a success result. -/
theorem seek_video_validation_witness :
    ((handleToolCall "seek_video" [("timestamp_seconds", .num (.fin (-1)))] coach0).playbackPos = none ∧
     (handleToolCall "seek_video" [("timestamp_seconds", .num (.fin (-1)))] coach0).sentResults =
       [("seek_video", .error "invalid timestamp")]) ∧
    ((handleToolCall "seek_video" [("timestamp_seconds", .num (.fin 30))] coach0).playbackPos = some 30 ∧
     (handleToolCall "seek_video" [("timestamp_seconds", .num (.fin 30))] coach0).sentResults =
       [("seek_video", .ok)]) := by
  have hbad := (seek_video_validation [("timestamp_seconds", .num (.fin (-1)))] coach0).1 (by decide)
  have hok := (seek_video_validation [("timestamp_seconds", .num (.fin 30))] coach0).2 30 (by decide) (by decide)
  exact ⟨⟨hbad.1, hbad.2.2⟩, ⟨hok.1, hok.2⟩⟩

/-- The same invalid-timestamp seek also rejects `NaN`. -/
theorem seek_video_rejects_nan :
    (handleToolCall "seek_video" [("timestamp_seconds", .num .nan)] coach0).playbackPos = none ∧
    (handleToolCall "seek_video" [("timestamp_seconds", .num .nan)] coach0).sentResults =
      [("seek_video", .error "invalid timestamp")] := by decide

/-- Counterexample to C5: a tool call with an unknown name is answered
with **no** `tool_result` at all (the dispatch switch has no default
case), and a `switch_tab` call with an invalid tab argument is likewise
left unanswered — not the "exactly one error tool_result" the claim
requires. -/
theorem unknown_tool_gets_no_result :
    handleToolCall "bogus_tool" [] coach0 = coach0 ∧
    (handleToolCall "bogus_tool" [] coach0).sentResults.length = 0 ∧
    (handleToolCall "switch_tab" [("tab", .str "bogus")] coach0).sentResults.length = 0 := by
  refine ⟨rfl, rfl, rfl⟩

/-- **C5 (amended)**: dispatch is total and sends at most one
`tool_result` per invocation: every known tool sends exactly one —
except `switch_tab` with an invalid (coalesced) tab argument, which
sends none — while a call with an unknown name leaves the state
entirely unchanged and sends none, so the channel keeps processing
subsequent frames. -/
theorem tool_result_discipline (name : String) (args : List (String × JsVal)) (s : CoachState) :
    (handleToolCall name args s).sentResults.length =
      s.sentResults.length + (if respondsOnce name args then 1 else 0) ∧
    (knownToolNames.contains name = false → handleToolCall name args s = s) := by
  by_cases h1 : name = "open_feedback_modal"
  · subst h1; simp [handleToolCall, respondsOnce, knownToolNames]
  by_cases h2 : name = "seek_video"
  · subst h2
    refine ⟨?_, ?_⟩
    · cases hts : jsCoalesce (jsLookup args "timestamp_seconds") (.num (.fin 0)) with
      | num n =>
          cases n with
          | fin q =>
              by_cases hq : 0 ≤ q <;>
                simp [handleToolCall, hts, hq, respondsOnce, knownToolNames]
          | nan => simp [handleToolCall, hts, respondsOnce, knownToolNames]
          | posInf => simp [handleToolCall, hts, respondsOnce, knownToolNames]
          | negInf => simp [handleToolCall, hts, respondsOnce, knownToolNames]
      | undefined => simp [handleToolCall, hts, respondsOnce, knownToolNames]
      | null => simp [handleToolCall, hts, respondsOnce, knownToolNames]
      | str t => simp [handleToolCall, hts, respondsOnce, knownToolNames]
      | bool b => simp [handleToolCall, hts, respondsOnce, knownToolNames]
    · intro hk; simp [knownToolNames] at hk
  by_cases h3 : name = "show_original"
  · subst h3; simp [handleToolCall, respondsOnce, knownToolNames]
  by_cases h4 : name = "record_final"
  · subst h4; simp [handleToolCall, respondsOnce, knownToolNames]
  by_cases h5 : name = "show_feedback_card"
  · subst h5; simp [handleToolCall, respondsOnce, knownToolNames]
  by_cases h6 : name = "switch_tab"
  · subst h6
    refine ⟨?_, ?_⟩
    · cases htab : jsCoalesce (jsLookup args "tab") (.str "original") with
      | str t =>
          simp only [handleToolCall, htab, respondsOnce, knownToolNames]
          by_cases hmem : t = "original" ∨ t = "practice" ∨ t = "final" <;>
            simp [hmem]
      | undefined => simp [handleToolCall, htab, respondsOnce, knownToolNames]
      | null => simp [handleToolCall, htab, respondsOnce, knownToolNames]
      | num n => simp [handleToolCall, htab, respondsOnce, knownToolNames]
      | bool b => simp [handleToolCall, htab, respondsOnce, knownToolNames]
    · intro hk; simp [knownToolNames] at hk
  · have hunknown : handleToolCall name args s = s := by
      simp [handleToolCall, h1, h2, h3, h4, h5, h6]
    have hresp : respondsOnce name args = false := by
      simp [respondsOnce, knownToolNames, h1, h2, h3, h4, h5, h6]
    exact ⟨by simp [hunknown, hresp], fun _ => hunknown⟩

/-- Witness for C5 (amended): a known tool answers exactly once; an
unknown tool leaves the state unchanged. -/
theorem tool_result_discipline_witness :
    (handleToolCall "show_original" [] coach0).sentResults.length = 1 ∧
    handleToolCall "mystery_tool" [] coach0 = coach0 := by
  have h1 := (tool_result_discipline "show_original" [] coach0).1
  have h2 := (tool_result_discipline "mystery_tool" [] coach0).2 (by decide)
  refine ⟨?_, h2⟩
  rw [h1]
  decide

/-- The manager state after the attempt cap is exhausted. -/
def wsAtCap : WSState :=
  { reconnectAttempts := 5, connected := false, scheduledDelayMs := none }

/-- Counterexample to C8: a manual reconnect (an explicit `connect`
call) does **not** reset the attempt counter — after five failed
attempts it stays at 5, so when the manual attempt fails in turn, no
further reconnect is scheduled. -/
theorem manual_reconnect_does_not_reset_attempts :
    (wsConnectCall wsAtCap).reconnectAttempts = 5 ∧
    (wsConnectCall wsAtCap).reconnectAttempts ≠ 0 ∧
    (wsOnClose (wsConnectCall wsAtCap)).scheduledDelayMs = none := by
  refine ⟨rfl, by decide, rfl⟩

/-- **C8 (amended)**: on unexpected closure, reconnects back off
linearly — the close that starts attempt `n` schedules it after
`n × 2000` ms — capped at 5 attempts; at the cap a closure schedules no
further reconnect and surfaces the disconnected state.  The attempt
counter is reset only by a successful open, not by a `connect` call
itself. -/
theorem reconnect_backoff_behavior (s : WSState) :
    (s.reconnectAttempts < wsMaxReconnectAttempts →
      wsOnClose s = { s with connected := false
                             reconnectAttempts := s.reconnectAttempts + 1
                             scheduledDelayMs := some (wsBaseDelayMs * (s.reconnectAttempts + 1)) }) ∧
    (wsMaxReconnectAttempts ≤ s.reconnectAttempts →
      wsOnClose s = { s with connected := false, scheduledDelayMs := none }) ∧
    (wsOnOpen s).reconnectAttempts = 0 ∧
    (wsOnOpen s).connected = true ∧
    (wsConnectCall s).reconnectAttempts = s.reconnectAttempts := by
  refine ⟨fun h => ?_, fun h => ?_, rfl, rfl, rfl⟩
  · simp [wsOnClose, h]
  · simp [wsOnClose, Nat.not_lt_of_le h]

/-- Witness for C8 (amended): the first failure schedules a 2000 ms
retry; a failure at the cap schedules nothing; at the cap five
consecutive failures have occurred. -/
theorem reconnect_backoff_behavior_witness :
    wsOnClose WSState.init =
      { WSState.init with connected := false, reconnectAttempts := 1
                          scheduledDelayMs := some 2000 } ∧
    wsOnClose wsAtCap = { wsAtCap with connected := false, scheduledDelayMs := none } := by
  have h1 := (reconnect_backoff_behavior WSState.init).1 (by decide)
  have h2 := (reconnect_backoff_behavior wsAtCap).2.1 (by decide)
  exact ⟨h1, h2⟩

/-- The modal state while a fix evaluation for item 0 is streaming,
over the two-item `sampleStore`; the session store holds no
`feedbackAddressed` field, so it reads as `undefined` (`none`). -/
def fixModal0 : FixModalState :=
  { phase := "evaluating", evaluationStatus := "", analysis := sampleStore
    feedbackAddressed := none }

/-- The state after the fix evaluation's `complete` event reports
success for item 0. -/
def fixModalAfter : FixModalState :=
  handleFixChunk (fun _ => some { is_fixed := true, explanation := "nailed it" }) 0
    ⟨.complete, "fix payload"⟩ fixModal0

/-- **C7** at its failing input: on a successful fix evaluation for
item 0 of `[A(unfixed), B(unfixed)]`, exactly one item — item 0 — is
transitioned to `fixed` (with one attempt recorded) and item 1 is left
untouched, but the session's aggregate addressed count is **not**
incremented by 1: the store never initializes `feedbackAddressed`, so
the code computes `undefined + 1`, i.e. `NaN`. -/
theorem fix_success_sets_addressed_count_to_nan :
    (fixModalAfter.analysis.currentAnalysis.map fun a =>
        a.feedback_items.map fun f => (f.status, f.fix_attempts)) =
      some [(some "fixed", some 1), (none, none)] ∧
    fixModal0.feedbackAddressed = none ∧
    fixModalAfter.feedbackAddressed = some JNum.nan := by
  refine ⟨?_, rfl, rfl⟩
  decide

/-- **C1 (amended)**: hydration restores by the priority the code
actually implements: `final_video ?? original_video` is consulted first,
so a persisted final video — scored or not — hides the original; only
its own score gates it, with the most recent practice clip as the sole
fallback.  When no final video is persisted the original's scored
result wins, else the most recent practice clip's; only scored sources
restore anything. -/
theorem restore_matches_amended_priority (data : FullSession) :
    restoreAnalysisFromSession data = amendedRestorePriority data := by
  unfold restoreAnalysisFromSession amendedRestorePriority
  cases hf : data.final_video with
  | some v =>
      cases hs : v.score with
      | some sc => simp [hf, hs, scoredResult, RestoreSource.score]
      | none =>
          cases hp : data.practice_clips.getLast? with
          | none => simp [hf, hs, hp, scoredResult, RestoreSource.score]
          | some c =>
              cases hc : c.score with
              | some sc => simp [hf, hs, hp, hc, scoredResult, RestoreSource.score]
              | none => simp [hf, hs, hp, hc, scoredResult, RestoreSource.score]
  | none =>
      cases ho : data.original_video with
      | some v =>
          cases hs : v.score with
          | some sc => simp [hf, ho, hs, scoredResult, RestoreSource.score]
          | none =>
              cases hp : data.practice_clips.getLast? with
              | none => simp [hf, ho, hs, hp, scoredResult, RestoreSource.score]
              | some c =>
                  cases hc : c.score with
                  | some sc => simp [hf, ho, hs, hp, hc, scoredResult, RestoreSource.score]
                  | none => simp [hf, ho, hs, hp, hc, scoredResult, RestoreSource.score]
      | none =>
          cases hp : data.practice_clips.getLast? with
          | none => simp [hf, ho, hp, scoredResult, RestoreSource.score]
          | some c =>
              cases hc : c.score with
              | some sc => simp [hf, ho, hp, hc, scoredResult, RestoreSource.score]
              | none => simp [hf, ho, hp, hc, scoredResult, RestoreSource.score]

/-- A persisted original take scored 80. -/
def origScored80 : VideoAnalysisData :=
  { url := "uo", blob_name := "bo", score := some 80
    summary := some "original take", feedback_items := [], strengths := []
    thought_signature := none, analyzed_at := none }

/-- A persisted final video slot that has no score yet. -/
def finalNoScore : VideoAnalysisData :=
  { url := "uf", blob_name := "bf", score := none, summary := none
    feedback_items := [], strengths := [], thought_signature := none
    analyzed_at := none }

/-- A later practice clip scored 60. -/
def practice60 : PracticeClipData :=
  { clip_number := 1, url := "up", blob_name := "bp", section_start := none
    section_end := none, focus_hint := none, feedback := some "practice feedback"
    score := some 60, feedback_items := [], strengths := []
    thought_signature := none, created_at := "2024-01-03" }

/-- The C1 counterexample session: an original scored 80, a later
practice clip scored 60, and a final video present without a score. -/
def fsC1 : FullSession :=
  { session_id := "SC1", user_id := "1", created_at := "c", updated_at := "u"
    original_video := some origScored80, practice_clips := [practice60]
    final_video := some finalNoScore, improvement := none }

/-- Counterexample to C1: on `fsC1` — a session with an original score
(80) and a later practice-clip score (60) but no final score — the code
restores the practice clip's result, not the original's, because the
unscored final video shadows the original in `final_video ?? original_video`.
The claimed priority (final > original > most recent practice over
scores) is false at this input. -/
theorem restore_priority_counterexample :
    restoreAnalysisFromSession fsC1 ≠ specRestorePriority fsC1 ∧
    (restoreAnalysisFromSession fsC1).map (fun r => r.overall_score) = some 60 ∧
    (specRestorePriority fsC1).map (fun r => r.overall_score) = some 80 := by
  refine ⟨?_, rfl, rfl⟩
  decide

/-- **C10**: whenever hydration restores an analysis view, every
restored feedback item carries only timestamp, category, severity,
title and description — its fix status, attempt counter, fix
explanation, fix-clip references (and suggested action) are all back at
their absent defaults (`unfixed`, zero attempts), whatever was
persisted. -/
theorem restored_items_reset_fix_lifecycle (data : FullSession) (r : AnalysisResult)
    (h : restoreAnalysisFromSession data = some r) :
    ∀ f ∈ r.feedback_items,
      f.status = none ∧ f.fix_attempts = none ∧ f.fix_feedback = none ∧
      f.fix_clip_url = none ∧ f.fix_clip_blob_name = none ∧ f.action = none := by
  simp only [restoreAnalysisFromSession] at h
  split at h
  · split at h
    · injection h with h
      subst h
      intro f hf
      simp only [resultOfSource, List.mem_map] at hf
      obtain ⟨g, hg, hfe⟩ := hf
      subst hfe
      simp [restoredItem]
    · exact absurd h (by simp)
  · exact absurd h (by simp)

/-- A persisted feedback item for the C10 witness. -/
def persistedC10Item : PersistedFeedbackItem :=
  { timestamp_seconds := 3, category := "vocals", severity := "critical"
    title := "T", description := "D" }

/-- A session persisting an original with one feedback item and a score. -/
def fsC10 : FullSession :=
  { session_id := "SC10", user_id := "1", created_at := "c", updated_at := "u"
    original_video := some
      { url := "p", blob_name := "pb", score := some 70, summary := some "orig C10"
        feedback_items := [persistedC10Item], strengths := []
        thought_signature := none, analyzed_at := none }
    practice_clips := [], final_video := none, improvement := none }

/-- What hydrating `fsC10` restores. -/
def c10Result : AnalysisResult :=
  { overall_score := 70, summary := "orig C10"
    feedback_items := [restoredItem persistedC10Item], strengths := []
    thought_signature := none }

/-- Witness for C10 on the concrete session `fsC10`. -/
theorem restored_items_reset_fix_lifecycle_witness :
    (restoredItem persistedC10Item).status = none ∧
    (restoredItem persistedC10Item).fix_attempts = none ∧
    (restoredItem persistedC10Item).fix_feedback = none ∧
    (restoredItem persistedC10Item).fix_clip_url = none ∧
    (restoredItem persistedC10Item).fix_clip_blob_name = none ∧
    (restoredItem persistedC10Item).action = none := by
  exact restored_items_reset_fix_lifecycle fsC10 c10Result rfl
    (restoredItem persistedC10Item) (by simp [c10Result])
